import Mathlib

/-!
Verification of the restaurant ordering backend (`src/main.py`, `src/schemas.py`).

Numbers: the Python code stores prices as floats and rounds with `round(x, 2)`
(round-half-to-even on the float's exact binary value).  We embed money
amounts as exact rationals and model `round(x, 2)` as round-half-to-even on
ℚ.  The two can part ways on inputs whose float residue crosses a half-cent
boundary, so every concrete input used in a counterexample or witness below
is one where the float computation provably agrees with the exact rational
one: at unit price 0.125 (exactly representable; tax 0.01 carries a positive
residue that keeps the sum 0.135 above the tie, and 12.5 is an exact tie for
the stored subtotal) and at the spec's own 25.73 example (no half-cent
residues at all).
-/

attribute [local semireducible] Rat.add Rat.mul Rat.sub Rat.inv

namespace RestaurantAPI

/-- Round a rational to the nearest integer, ties to even
(the rounding mode of Python `round`). -/
def roundHalfEven (q : ℚ) : ℤ :=
  let f : ℤ := q.floor
  let twice : ℤ := 2 * q.num
  let mid : ℤ := (2 * f + 1) * (q.den : ℤ)
  if twice < mid then f
  else if mid < twice then f + 1
  else if f % 2 = 0 then f else f + 1

/-- Model of Python `round(x, 2)`: round to 2 decimal places, ties to even. -/
def round2 (q : ℚ) : ℚ :=
  mkRat (roundHalfEven (q * 100)) 100

/-- The fixed tax rate `0.08` of `create_order` (src/main.py line 144). -/
def taxRate : ℚ := mkRat 8 100

/-- `schemas.Customer`. -/
structure Customer where
  name : String
  email : Option String := none
  phone : Option String := none
deriving Repr, DecidableEq

/-- `schemas.OrderItem`: a line item embedded in an order. -/
structure OrderItem where
  menu_item_id : String
  name : String
  unit_price : ℚ
  quantity : ℤ
  notes : Option String := none
deriving Repr, DecidableEq

/-- The pydantic field constraints of `OrderItem`
(`unit_price ≥ 0`, `quantity ≥ 1`, src/schemas.py lines 28-29). -/
def OrderItem.valid (oi : OrderItem) : Prop :=
  0 ≤ oi.unit_price ∧ 1 ≤ oi.quantity

instance : DecidablePred OrderItem.valid := fun oi =>
  decidable_of_iff (0 ≤ oi.unit_price ∧ 1 ≤ oi.quantity) Iff.rfl

/-- `schemas.Order`: the aggregate persisted to the `order` collection. -/
structure Order where
  customer : Customer
  items : List OrderItem
  subtotal : ℚ
  tax : ℚ
  total : ℚ
  status : String
  table_number : Option String := none
  pickup : Bool := false
deriving Repr, DecidableEq

/-- `main.CreateOrderRequest`: the request body of `POST /api/orders`. -/
structure CreateOrderRequest where
  customer : Customer
  items : List OrderItem
  table_number : Option String := none
  pickup : Bool := false
deriving Repr, DecidableEq

/-- The unrounded subtotal `sum(oi.unit_price * oi.quantity for oi in payload.items)`
(src/main.py line 143). -/
def orderSubtotalSum (items : List OrderItem) : ℚ :=
  (items.map (fun oi => oi.unit_price * (oi.quantity : ℚ))).sum

/-- The `Order` document constructed by `create_order` (src/main.py lines 141-156):
`subtotal` is the item sum rounded for storage, `tax = round(subtotal * 0.08, 2)`
and `total = round(subtotal + tax, 2)` are computed from the unrounded sum. -/
def create_order (payload : CreateOrderRequest) : Order :=
  let subtotal : ℚ := orderSubtotalSum payload.items
  let tax : ℚ := round2 (subtotal * taxRate)
  let total : ℚ := round2 (subtotal + tax)
  { customer := payload.customer
    items := payload.items
    subtotal := round2 subtotal
    tax := tax
    total := total
    status := "pending"
    table_number := payload.table_number
    pickup := payload.pickup }

/-! ## Loosely-typed stored documents

The document store keeps semi-structured records; we model a stored value as
a tagged union and a document as a Python-style dict (an association list with
unique keys, insertion-ordered). -/

/-- A value inside a stored document. -/
inductive DVal where
  | str (s : String)
  | num (q : ℚ)
  | bool (b : Bool)
  | null
  | oid (n : ℕ)
deriving DecidableEq

/-- A stored document: field name to value, insertion ordered (a Python dict). -/
abbrev Doc := List (String × DVal)

/-- Python `doc.get(k)`: the value at key `k`, if present
(first entry wins). -/
def dictGet : Doc → String → Option DVal
  | [], _ => Option.none
  | p :: rest, k => if p.1 == k then Option.some p.2 else dictGet rest k

/-- Python `doc[k] = v`: update the entry in place if the key exists,
otherwise append it. -/
def dictSet (d : Doc) (k : String) (v : DVal) : Doc :=
  if (dictGet d k).isSome then
    d.map (fun p => if p.1 == k then (k, v) else p)
  else
    d ++ [(k, v)]

/-- Python `doc.pop(k, None)`: drop the entry at key `k`. -/
def dictPop (d : Doc) (k : String) : Doc :=
  d.filter (fun p => !(p.1 == k))

/-- Python `str(x)` applied to the result of `doc.get("_id")`
(`None` stringifies to `"None"`). -/
def pyStr : Option DVal → String
  | Option.none => "None"
  | Option.some (DVal.str s) => s
  | Option.some (DVal.num q) => toString q
  | Option.some (DVal.bool b) => if b then "True" else "False"
  | Option.some DVal.null => "None"
  | Option.some (DVal.oid n) => toString n

/-! ## Document Store Gateway

`database.py` (imported by `src/main.py` as `from database import db,
create_document, get_documents`) is not part of the sources; its operations
are modelled from the spec. -/

/-- Modelled from the spec: `get_documents` of the missing `database.py`
reads up to `limit` documents of a collection in store order
("up to `limit` most-recent-or-store-order orders"). -/
def get_documents (coll : List Doc) (limit : ℕ) : List Doc :=
  coll.take limit

/-- Modelled from the spec: `create_document` of the missing `database.py`
writes one whole document to a collection and returns its generated
identifier, or fails with no change to the collection ("No partial success:
either the whole order document is written or the operation fails as a whole
(the gateway provides no intermediate state)").  The Boolean `ok` is the
oracle for whether the store write succeeds. -/
def create_document {α : Type} (coll : List α) (doc : α) (ok : Bool) :
    Except String (ℕ × List α) :=
  if ok then Except.ok (coll.length, coll ++ [doc])
  else Except.error "store write failed"

/-! ## Order endpoints -/

/-- The body returned by `POST /api/orders` on success
(`{"id": new_id, "total": total}`, src/main.py line 160). -/
structure OrderResponse where
  id : ℕ
  total : ℚ
deriving DecidableEq

/-- `POST /api/orders` (src/main.py lines 140-162): request-model validation
of every item (pydantic, src/schemas.py lines 25-30) rejects with 422 before
the handler runs; then the handler builds the order document and persists it,
turning a store failure into HTTP 500 with the store unchanged. -/
def post_orders (store : List Order) (payload : CreateOrderRequest) (ok : Bool) :
    List Order × Except ℕ OrderResponse :=
  if payload.items.all (fun oi => decide oi.valid) then
    let doc := create_order payload
    match create_document store doc ok with
    | Except.ok (newId, newStore) =>
        (newStore, Except.ok { id := newId, total := doc.total })
    | Except.error _ => (store, Except.error 500)
  else
    (store, Except.error 422)

/-- `GET /api/orders` (src/main.py lines 165-176): read up to `limit`
documents and map each store identifier to a plain string field `id`. -/
def map_order (doc : Doc) : Doc :=
  dictPop (dictSet doc "id" (DVal.str (pyStr (dictGet doc "_id")))) "_id"

/-- `list_orders` (src/main.py lines 165-176). -/
def list_orders (store : List Doc) (limit : ℕ) : List Doc :=
  (get_documents store limit).map map_order

/-- The default of the `limit` query parameter (src/main.py line 166). -/
def list_orders_default_limit : ℕ := 50

/-- `GET /api/orders` when the caller supplies no `limit`. -/
def list_orders_nolimit (store : List Doc) : List Doc :=
  list_orders store list_orders_default_limit

/-! ## Menu endpoints -/

/-- `schemas.MenuItem`. -/
structure MenuItem where
  name : String
  description : Option String := none
  price : ℚ
  category : String
  image_url : Option String := none
  is_available : Bool := true
deriving DecidableEq

/-- The pydantic field constraint of `MenuItem` (`price ≥ 0`,
src/schemas.py line 20). -/
def MenuItem.valid (m : MenuItem) : Prop := 0 ≤ m.price

instance : DecidablePred MenuItem.valid := fun m =>
  decidable_of_iff (0 ≤ m.price) Iff.rfl

/-- `POST /api/menu` (src/main.py lines 64-70): request-model validation
rejects with 422 before the handler runs; the handler persists the item
and turns a store failure into HTTP 500 with the store unchanged. -/
def post_menu (store : List MenuItem) (body : MenuItem) (ok : Bool) :
    List MenuItem × Except ℕ ℕ :=
  if decide body.valid then
    match create_document store body ok with
    | Except.ok (newId, newStore) => (newStore, Except.ok newId)
    | Except.error _ => (store, Except.error 500)
  else
    (store, Except.error 422)

/-- The five fixed sample dishes of `seed_menu` (src/main.py lines 80-121). -/
def samples : List Doc :=
  [ [("name", DVal.str "Margherita Pizza"),
     ("description", DVal.str "Classic pizza with tomato, mozzarella, basil"),
     ("price", DVal.num (mkRat 1099 100)),
     ("category", DVal.str "Mains"),
     ("image_url", DVal.str "https://images.unsplash.com/photo-1548365328-9f547fb0953c"),
     ("is_available", DVal.bool true)],
    [("name", DVal.str "Caesar Salad"),
     ("description", DVal.str "Romaine, parmesan, croutons, caesar dressing"),
     ("price", DVal.num (mkRat 85 10)),
     ("category", DVal.str "Starters"),
     ("image_url", DVal.str "https://images.unsplash.com/photo-1551183053-bf91a1d81141"),
     ("is_available", DVal.bool true)],
    [("name", DVal.str "Spaghetti Bolognese"),
     ("description", DVal.str "Rich beef ragu over spaghetti"),
     ("price", DVal.num (mkRat 1325 100)),
     ("category", DVal.str "Mains"),
     ("image_url", DVal.str "https://images.unsplash.com/photo-1523986371872-9d3ba2e2a389"),
     ("is_available", DVal.bool true)],
    [("name", DVal.str "Lemonade"),
     ("description", DVal.str "Freshly squeezed lemonade"),
     ("price", DVal.num (mkRat 375 100)),
     ("category", DVal.str "Drinks"),
     ("image_url", DVal.str "https://images.unsplash.com/photo-1497534446932-c925b458314e"),
     ("is_available", DVal.bool true)],
    [("name", DVal.str "Chocolate Brownie"),
     ("description", DVal.str "Warm brownie with vanilla ice cream"),
     ("price", DVal.num (mkRat 6 1)),
     ("category", DVal.str "Desserts"),
     ("image_url", DVal.str "https://images.unsplash.com/photo-1606313564200-e75d5e30476e"),
     ("is_available", DVal.bool true)] ]

/-- `POST /api/menu/seed` (src/main.py lines 73-128): count the existing
documents of the `menuitem` collection; if any exist, report zero insertions
and change nothing, otherwise insert the five samples one by one, counting
each insertion. -/
def seed_menu (store : List Doc) : List Doc × ℕ :=
  let existing := store.length
  if existing > 0 then (store, 0)
  else samples.foldl (fun acc s => (acc.1 ++ [s], acc.2 + 1)) (store, 0)

/-- `GET /api/menu` (src/main.py lines 48-61) rebuilds a `MenuItem` from each
stored document, defaulting a missing `price` to `0.0`, a missing `category`
to `"Other"` and a missing `is_available` to `True`; `name`, `description`
and `image_url` are passed through `doc.get` with default `None`, and the
pydantic model then rejects a non-string `name`.  Stored values are taken at
their stored type (every write path of this system stores correctly typed
fields). -/
def parseMenuDoc (d : Doc) : Except String MenuItem := do
  let name ←
    match dictGet d "name" with
    | Option.some (DVal.str s) => Except.ok s
    | _ => Except.error "name: none is not an allowed value"
  let description :=
    match dictGet d "description" with
    | Option.some (DVal.str s) => Option.some s
    | _ => Option.none
  let price ←
    match dictGet d "price" with
    | Option.none => Except.ok (0 : ℚ)
    | Option.some (DVal.num q) =>
        if 0 ≤ q then Except.ok q
        else Except.error "price: ensure this value is greater than or equal to 0"
    | Option.some _ => Except.error "price: value is not a valid float"
  let category ←
    match dictGet d "category" with
    | Option.none => Except.ok "Other"
    | Option.some (DVal.str s) => Except.ok s
    | Option.some _ => Except.error "category: str type expected"
  let image_url :=
    match dictGet d "image_url" with
    | Option.some (DVal.str s) => Option.some s
    | _ => Option.none
  let is_available ←
    match dictGet d "is_available" with
    | Option.none => Except.ok true
    | Option.some (DVal.bool b) => Except.ok b
    | Option.some _ => Except.error "is_available: value is not a valid boolean"
  Except.ok
    { name := name
      description := description
      price := price
      category := category
      image_url := image_url
      is_available := is_available }

/-- `get_menu` (src/main.py lines 48-61): every stored document is rebuilt;
one document failing the response model makes the request fail. -/
def get_menu (store : List Doc) : Except String (List MenuItem) :=
  store.mapM parseMenuDoc

/-- A stored field value usable as the required `name`: a string. -/
def isStrV : Option DVal → Bool
  | Option.some (DVal.str _) => true
  | _ => false

/-- A stored `price` field `get_menu` can serve: absent, or a non-negative
number (a present ill-typed or negative price fails the response model). -/
def priceFieldOk : Option DVal → Bool
  | Option.none => true
  | Option.some (DVal.num q) => decide (0 ≤ q)
  | _ => false

/-- A stored `category` field `get_menu` can serve: absent or a string. -/
def catFieldOk : Option DVal → Bool
  | Option.none => true
  | Option.some (DVal.str _) => true
  | _ => false

/-- A stored `is_available` field `get_menu` can serve: absent or a
boolean. -/
def availFieldOk : Option DVal → Bool
  | Option.none => true
  | Option.some (DVal.bool _) => true
  | _ => false

/-- A stored document `get_menu` serves without erroring: its `name` is a
string, and each of `price`, `category`, `is_available` is absent or well
typed (`price ≥ 0`); `description` and `image_url` are unconstrained. -/
def menuDocOk (d : Doc) : Bool :=
  isStrV (dictGet d "name") && priceFieldOk (dictGet d "price") &&
    catFieldOk (dictGet d "category") && availFieldOk (dictGet d "is_available")

/-- The record the amended claim says `get_menu` renders for a stored
document, following the claim's words: each present field is passed through
and each missing field is defaulted independently of the others — `price`
to `0.0`, `category` to `"Other"`, `is_available` to `true`, the optional
`description`/`image_url` to nothing.  The `""` fallback for `name` only
makes the rendering total; it is unreachable under `menuDocOk`. -/
def renderMenuDoc (d : Doc) : MenuItem :=
  { name := match dictGet d "name" with
      | Option.some (DVal.str s) => s
      | _ => ""
    description := match dictGet d "description" with
      | Option.some (DVal.str s) => Option.some s
      | _ => Option.none
    price := match dictGet d "price" with
      | Option.some (DVal.num q) => q
      | _ => 0
    category := match dictGet d "category" with
      | Option.some (DVal.str s) => s
      | _ => "Other"
    image_url := match dictGet d "image_url" with
      | Option.some (DVal.str s) => Option.some s
      | _ => Option.none
    is_available := match dictGet d "is_available" with
      | Option.some (DVal.bool b) => b
      | _ => true }

/-! ## Diagnostic probe -/

/-- The three states the probe can observe: `db is None`, a connected store
answering `list_collection_names`, or a store whose call raises. -/
inductive DbState where
  | notConfigured
  | connected (collections : List String)
  | failing (msg : String)

/-- The body returned by `GET /test`. -/
structure TestResponse where
  backend : String
  database : String
  collections : List String
deriving DecidableEq

/-- `test_database` (src/main.py lines 26-43): the probe always returns a
body; a raising store is caught and reported inline with the message
truncated to 80 characters (`str(e)[:80]`). -/
def test_database (st : DbState) : TestResponse :=
  match st with
  | DbState.notConfigured =>
      { backend := "✅ Running", database := "❌ Not Configured", collections := [] }
  | DbState.connected cs =>
      { backend := "✅ Running", database := "✅ Connected", collections := cs.take 10 }
  | DbState.failing msg =>
      { backend := "✅ Running", database := "❌ Error: " ++ msg.take 80, collections := [] }

/-! ## Rounding lemmas -/

/-- A rational with denominator 1 is its own nearest integer. -/
theorem roundHalfEven_den_one (q : ℚ) (h : q.den = 1) : roundHalfEven q = q.num := by
  have hf : q.floor = q.num := by simp [Rat.floor, h]
  simp only [roundHalfEven, hf, h]
  rw [if_pos (by push_cast; omega)]

/-- `round2` fixes every whole number of cents. -/
theorem round2_den_one (q : ℚ) (h : (q * 100).den = 1) : round2 q = q := by
  unfold round2
  rw [roundHalfEven_den_one _ h, Rat.mkRat_eq_divInt, Rat.divInt_eq_div,
    Rat.coe_int_num_of_den_eq_one h]
  push_cast
  field_simp

/-! ## Concrete requests used in counterexamples and witnesses -/

/-- One item of 0.125 dollars: the stored subtotal lands on a half-cent tie
(12.5 cents rounds down to 0.12) while the total does not (13.5 cents plus
the positive float residue of the tax rounds up to 0.14 in Python, as does
the exact rational tie by half-even). -/
def tieOrderRequest : CreateOrderRequest :=
  { customer := { name := "Ada Lovelace" }
    items := [{ menu_item_id := "m1", name := "Eighth Dish",
                unit_price := mkRat 1 8, quantity := 1 }] }

/-- The worked example of the spec (two pizzas at 10.99 and one lemonade
at 3.75: subtotal 25.73, tax 2.06, total 27.79). -/
def specOrderRequest : CreateOrderRequest :=
  { customer := { name := "Spec Example" }
    items := [{ menu_item_id := "m1", name := "Margherita Pizza",
                unit_price := mkRat 1099 100, quantity := 2 },
              { menu_item_id := "m4", name := "Lemonade",
                unit_price := mkRat 375 100, quantity := 1 }] }

/-! ## C1 -/

/-- C1 (counterexample): for the valid item list `[0.125 × 1]` the total
returned by `create_order` is 0.14, while the claimed formula
`round(round(S, 2) + round(0.08·S, 2), 2)` gives 0.13: the code adds the tax
to the UNROUNDED subtotal, and the two disagree at this half-cent tie. -/
theorem c1_rounded_subtotal_formula_cex :
    tieOrderRequest.items.all (fun oi => decide oi.valid) = true ∧
    (create_order tieOrderRequest).total ≠
      round2 (round2 (orderSubtotalSum tieOrderRequest.items) +
        round2 (taxRate * orderSubtotalSum tieOrderRequest.items)) := by
  decide

/-- C1 (amended): for EVERY list of order items with `quantity ≥ 1` and
`unit_price ≥ 0` the returned total equals
`round(S + round(0.08·S, 2), 2)` with `S` the UNROUNDED subtotal — no
restriction on `S`; additionally, whenever `S` happens to be a whole number
of cents (in particular for all prices with at most two decimal places) this
coincides with the claimed `round(round(S, 2) + round(0.08·S, 2), 2)`, which
is exactly the case the half-cent-tie counterexample escapes. -/
theorem c1_total_formula_amended (payload : CreateOrderRequest)
    (_hval : ∀ oi ∈ payload.items, oi.valid) :
    (create_order payload).total =
      round2 (orderSubtotalSum payload.items +
        round2 (taxRate * orderSubtotalSum payload.items)) ∧
    ((orderSubtotalSum payload.items * 100).den = 1 →
      (create_order payload).total =
        round2 (round2 (orderSubtotalSum payload.items) +
          round2 (taxRate * orderSubtotalSum payload.items))) := by
  constructor
  · show round2 (orderSubtotalSum payload.items +
        round2 (orderSubtotalSum payload.items * taxRate)) = _
    rw [mul_comm]
  · intro hden
    show round2 (orderSubtotalSum payload.items +
        round2 (orderSubtotalSum payload.items * taxRate)) = _
    rw [mul_comm, round2_den_one _ hden]

/-- C1 (witness): the amended statement evaluated on the spec's worked
example (subtotal 25.73), discharging both the validity hypothesis and the
whole-cents side condition of the second part. -/
theorem c1_total_formula_amended_witness :
    (create_order specOrderRequest).total =
      round2 (orderSubtotalSum specOrderRequest.items +
        round2 (taxRate * orderSubtotalSum specOrderRequest.items)) ∧
    (create_order specOrderRequest).total =
      round2 (round2 (orderSubtotalSum specOrderRequest.items) +
        round2 (taxRate * orderSubtotalSum specOrderRequest.items)) :=
  ⟨(c1_total_formula_amended specOrderRequest (by decide)).1,
   (c1_total_formula_amended specOrderRequest (by decide)).2 (by decide)⟩

/-! ## C2 -/

/-- C2 (counterexample): for the order built from the item list `[0.125 × 1]`
by `create_order`, `subtotal = 0.12`, `tax = 0.01` but `total = 0.14`, so the
claimed invariant `total = subtotal + tax` fails by one cent (the
conjunction of the claim is false at this persisted order; the Python floats
behave identically: `round(0.125, 2) = 0.12`, `round(0.125*0.08, 2) = 0.01`,
`round(0.125 + 0.01, 2) = 0.14`). -/
theorem c2_invariant_cex :
    ¬((create_order tieOrderRequest).total =
        (create_order tieOrderRequest).subtotal + (create_order tieOrderRequest).tax ∧
      (create_order tieOrderRequest).subtotal =
        round2 (orderSubtotalSum tieOrderRequest.items)) := by
  decide

/-- C2 (amended): every order document constructed by `create_order`
satisfies `subtotal = round(S, 2)`, `tax = round(S·0.08, 2)` and
`total = round(S + tax, 2)` where `S` is the UNROUNDED item sum; at
half-cent ties this `total` can differ from `subtotal + tax` by one cent. -/
theorem c2_pricing_fields_amended (payload : CreateOrderRequest) :
    (create_order payload).subtotal = round2 (orderSubtotalSum payload.items) ∧
    (create_order payload).tax = round2 (orderSubtotalSum payload.items * taxRate) ∧
    (create_order payload).total =
      round2 (orderSubtotalSum payload.items + (create_order payload).tax) :=
  ⟨rfl, rfl, rfl⟩

/-! ## C3 -/

/-- C3: the status of every order document constructed by `create_order`
is `"pending"`, whatever the customer, items, table number and pickup flag
of the request. -/
theorem c3_status_always_pending (payload : CreateOrderRequest) :
    (create_order payload).status = "pending" := rfl

/-! ## C4 -/

/-- C4: on an empty `menuitem` collection `seed_menu` inserts exactly the 5
sample records and reports 5 insertions; on a non-empty collection it leaves
the data unchanged and reports 0. -/
theorem c4_seed_menu_behavior (store : List Doc) :
    seed_menu store = (if store = [] then (samples, 5) else (store, 0)) ∧
    samples.length = 5 := by
  refine ⟨?_, rfl⟩
  by_cases h : store = []
  · subst h
    simp only [if_pos rfl]
    decide
  · rw [if_neg h]
    simp [seed_menu, List.length_pos.mpr h]

/-! ## C5 -/

/-- C5: `list_orders` returns at most `limit` records, the default limit is
50, and `list_orders` with `limit = 2` returns at most 2 records. -/
theorem c5_list_orders_limit (store : List Doc) (limit : ℕ) :
    (list_orders store limit).length ≤ limit ∧
    list_orders_nolimit store = list_orders store 50 ∧
    (list_orders store 2).length ≤ 2 := by
  refine ⟨?_, rfl, ?_⟩ <;>
    simp [list_orders, get_documents, List.length_take]

/-! ## Dictionary lemmas for the `id` mapping -/

/-- Appending a fresh key makes it visible to lookup. -/
theorem dictGet_append_of_none (d : Doc) (k : String) (v : DVal)
    (h : dictGet d k = Option.none) :
    dictGet (d ++ [(k, v)]) k = Option.some v := by
  induction d with
  | nil => simp [dictGet]
  | cons a t ih =>
    by_cases ha : (a.1 == k) = true
    · simp [dictGet, ha] at h
    · simp [dictGet, ha] at h ⊢
      exact ih h

/-- Replacing an existing key makes the new value visible to lookup. -/
theorem dictGet_replace_of_isSome (d : Doc) (k : String) (v : DVal)
    (h : (dictGet d k).isSome = true) :
    dictGet (d.map (fun p => if p.1 == k then (k, v) else p)) k = Option.some v := by
  induction d with
  | nil => simp [dictGet] at h
  | cons a t ih =>
    by_cases ha : (a.1 == k) = true
    · simp [dictGet, ha]
    · have h2 : (dictGet t k).isSome = true := by simpa [dictGet, ha] using h
      simp [dictGet, ha]
      simpa using ih h2

/-- `doc[k] = v` followed by `doc.get(k)` yields `v`. -/
theorem dictGet_dictSet_self (d : Doc) (k : String) (v : DVal) :
    dictGet (dictSet d k v) k = Option.some v := by
  unfold dictSet
  by_cases h : (dictGet d k).isSome = true
  · rw [if_pos h]
    exact dictGet_replace_of_isSome d k v h
  · rw [if_neg h]
    exact dictGet_append_of_none d k v (Option.not_isSome_iff_eq_none.mp h)

/-- A popped key is gone. -/
theorem dictGet_dictPop_self (d : Doc) (k : String) :
    dictGet (dictPop d k) k = Option.none := by
  induction d with
  | nil => rfl
  | cons a t ih =>
    by_cases ha : (a.1 == k) = true
    · simpa [dictPop, List.filter_cons, ha] using ih
    · simpa [dictPop, dictGet, List.filter_cons, ha] using ih

/-- Popping one key leaves every other key untouched. -/
theorem dictGet_dictPop_ne (d : Doc) (k k2 : String) (h : k2 ≠ k) :
    dictGet (dictPop d k) k2 = dictGet d k2 := by
  induction d with
  | nil => rfl
  | cons a t ih =>
    by_cases ha : (a.1 == k) = true
    · have hb : (a.1 == k2) = false := by
        refine beq_eq_false_iff_ne.mpr ?_
        have : a.1 = k := by simpa using ha
        rw [this]
        exact fun hc => h hc.symm
      simpa [dictPop, dictGet, List.filter_cons, ha, hb] using ih
    · by_cases hb : (a.1 == k2) = true
      · simp [dictPop, dictGet, List.filter_cons, ha, hb]
      · simpa [dictPop, dictGet, List.filter_cons, ha, hb] using ih

/-- `map_order` always produces a string `id` field and drops `_id`. -/
theorem map_order_id (d : Doc) :
    (∃ s, dictGet (map_order d) "id" = Option.some (DVal.str s)) ∧
    dictGet (map_order d) "_id" = Option.none := by
  unfold map_order
  refine ⟨⟨pyStr (dictGet d "_id"), ?_⟩, dictGet_dictPop_self _ _⟩
  rw [dictGet_dictPop_ne _ _ _ (by decide), dictGet_dictSet_self]

/-! ## C6 -/

/-- C6: every record returned by `list_orders` carries a field `id` holding
a string and no `_id` field. -/
theorem c6_list_orders_id_field (store : List Doc) (limit : ℕ) (d : Doc)
    (hd : d ∈ list_orders store limit) :
    (∃ s, dictGet d "id" = Option.some (DVal.str s)) ∧
    dictGet d "_id" = Option.none := by
  obtain ⟨d0, _, rfl⟩ := List.mem_map.mp hd
  exact map_order_id d0

/-- C6 (witness): the statement evaluated on a one-document store. -/
theorem c6_list_orders_id_field_witness :
    (∃ s, dictGet (map_order [("_id", DVal.oid 7)]) "id" = Option.some (DVal.str s)) ∧
    dictGet (map_order [("_id", DVal.oid 7)]) "_id" = Option.none :=
  c6_list_orders_id_field [[("_id", DVal.oid 7)]] 1 (map_order [("_id", DVal.oid 7)])
    (by decide)

/-! ## C7 -/

/-- A menu item with `price = -1`, which the pydantic input model must
reject. -/
def badMenuItem : MenuItem :=
  { name := "Mystery Dish", price := mkRat (-1) 1, category := "Mains" }

/-- An order whose single item has `quantity = 0`, which the pydantic input
model must reject. -/
def badOrderRequest : CreateOrderRequest :=
  { customer := { name := "Zero Quantity" }
    items := [{ menu_item_id := "m4", name := "Lemonade",
                unit_price := mkRat 375 100, quantity := 0 }] }

/-- C7: a `MenuItem` with `price = -1` and an `OrderItem` with
`quantity = 0` are rejected with 422 by input-model validation: whatever the
state of the store and of the gateway, nothing is written and no business
logic runs. -/
theorem c7_validation_rejects_before_store (ms : List MenuItem) (os : List Order)
    (ok : Bool) :
    post_menu ms badMenuItem ok = (ms, Except.error 422) ∧
    post_orders os badOrderRequest ok = (os, Except.error 422) := by
  have h1 : decide badMenuItem.valid = false := by decide
  have h2 : badOrderRequest.items.all (fun oi => decide oi.valid) = false := by decide
  constructor
  · simp [post_menu, h1]
  · simp [post_orders, h2]

/-! ## C8 -/

/-- C8: for a validated order request, `POST /api/orders` either writes the
whole order document and answers with its identifier and total, or (when the
store write fails) leaves the store untouched and surfaces HTTP 500 with no
identifier — there is no partial success. -/
theorem c8_order_write_atomicity (store : List Order) (payload : CreateOrderRequest)
    (ok : Bool)
    (hval : payload.items.all (fun oi => decide oi.valid) = true) :
    post_orders store payload ok =
      if ok then
        (store ++ [create_order payload],
         Except.ok { id := store.length, total := (create_order payload).total })
      else (store, Except.error 500) := by
  cases ok <;> simp [post_orders, hval, create_document]

/-- C8 (witness): both outcomes evaluated on the spec's worked example
against an empty store. -/
theorem c8_order_write_atomicity_witness :
    post_orders [] specOrderRequest true =
      ([create_order specOrderRequest],
       Except.ok { id := 0, total := (create_order specOrderRequest).total }) ∧
    post_orders [] specOrderRequest false = ([], Except.error 500) :=
  ⟨by simpa using c8_order_write_atomicity [] specOrderRequest true (by decide),
   by simpa using c8_order_write_atomicity [] specOrderRequest false (by decide)⟩

/-! ## C9 -/

/-- C9: the `/test` probe answers on every store state — not configured,
connected, or raising — with a body reporting the backend as running, at
most 10 collection names, and the store state (a raising store is reported
inline with its message truncated to 80 characters). -/
theorem c9_probe_never_errors (st : DbState) :
    (test_database st).backend = "✅ Running" ∧
    (test_database st).collections.length ≤ 10 ∧
    (test_database st).database =
      (match st with
        | DbState.notConfigured => "❌ Not Configured"
        | DbState.connected _ => "✅ Connected"
        | DbState.failing msg => "❌ Error: " ++ msg.take 80) := by
  cases st <;> simp [test_database]

/-! ## C10 -/

/-- A stored document with a price but no `name` field. -/
def missingNameDoc : Doc := [("price", DVal.num (mkRat 999 100))]

/-- C10 (counterexample): `get_menu` is NOT total on arbitrary stored
documents: a document lacking the required `name` field makes the whole
request fail, because `i.get("name")` yields `None` and the `MenuItem`
response model rejects it. -/
theorem c10_get_menu_missing_name_cex :
    get_menu [missingNameDoc] = Except.error "name: none is not an allowed value" := rfl

/-- `isStrV` holds exactly of string values. -/
theorem isStrV_inv {o : Option DVal} (h : isStrV o = true) :
    ∃ s, o = Option.some (DVal.str s) := by
  cases o with
  | none => simp [isStrV] at h
  | some v =>
    cases v with
    | str s => exact ⟨s, rfl⟩
    | num q => simp [isStrV] at h
    | bool b => simp [isStrV] at h
    | null => simp [isStrV] at h
    | oid n => simp [isStrV] at h

/-- `priceFieldOk` holds exactly of an absent field or a non-negative
number. -/
theorem priceFieldOk_inv {o : Option DVal} (h : priceFieldOk o = true) :
    o = Option.none ∨ ∃ q, o = Option.some (DVal.num q) ∧ 0 ≤ q := by
  cases o with
  | none => exact Or.inl rfl
  | some v =>
    cases v with
    | num q => exact Or.inr ⟨q, rfl, by simpa [priceFieldOk] using h⟩
    | str s => simp [priceFieldOk] at h
    | bool b => simp [priceFieldOk] at h
    | null => simp [priceFieldOk] at h
    | oid n => simp [priceFieldOk] at h

/-- `catFieldOk` holds exactly of an absent field or a string. -/
theorem catFieldOk_inv {o : Option DVal} (h : catFieldOk o = true) :
    o = Option.none ∨ ∃ s, o = Option.some (DVal.str s) := by
  cases o with
  | none => exact Or.inl rfl
  | some v =>
    cases v with
    | str s => exact Or.inr ⟨s, rfl⟩
    | num q => simp [catFieldOk] at h
    | bool b => simp [catFieldOk] at h
    | null => simp [catFieldOk] at h
    | oid n => simp [catFieldOk] at h

/-- `availFieldOk` holds exactly of an absent field or a boolean. -/
theorem availFieldOk_inv {o : Option DVal} (h : availFieldOk o = true) :
    o = Option.none ∨ ∃ b, o = Option.some (DVal.bool b) := by
  cases o with
  | none => exact Or.inl rfl
  | some v =>
    cases v with
    | bool b => exact Or.inr ⟨b, rfl⟩
    | str s => simp [availFieldOk] at h
    | num q => simp [availFieldOk] at h
    | null => simp [availFieldOk] at h
    | oid n => simp [availFieldOk] at h

/-- The response-model rebuild of `get_menu` agrees with the field-wise
rendering on every well-formed stored document: each missing field is
defaulted independently and the record is kept. -/
theorem parseMenuDoc_ok (d : Doc) (h : menuDocOk d = true) :
    parseMenuDoc d = Except.ok (renderMenuDoc d) := by
  simp only [menuDocOk, Bool.and_eq_true] at h
  obtain ⟨⟨⟨hn, hp⟩, hc⟩, ha⟩ := h
  obtain ⟨s, hgn⟩ := isStrV_inv hn
  rcases priceFieldOk_inv hp with hgp | ⟨q, hgp, hq⟩ <;>
  rcases catFieldOk_inv hc with hgc | ⟨c, hgc⟩ <;>
  rcases availFieldOk_inv ha with hga | ⟨b, hga⟩ <;>
    simp [parseMenuDoc, renderMenuDoc, hgn, hgp, hgc, hga] <;>
    first
      | rfl
      | (simp only [hq, if_true]; rfl)

/-- Traversing with a failure-free function is mapping. -/
theorem mapM_ok_of_forall {α β : Type} (f : α → Except String β) (g : α → β)
    (l : List α) (h : ∀ a ∈ l, f a = Except.ok (g a)) :
    l.mapM f = Except.ok (l.map g) := by
  induction l with
  | nil => rfl
  | cons a t ih =>
    rw [List.mapM_cons, h a (by simp), ih (fun x hx => h x (by simp [hx]))]
    rfl

/-- C10 (amended): for EVERY store whose documents each carry a string
`name` (with any present `price`/`category`/`is_available` well typed),
`get_menu` returns one record per document — none dropped, no error — and
each record defaults its missing fields independently: `price` to `0.0`,
`category` to `"Other"`, `is_available` to `true`; only a document with no
usable `name` makes the request error. -/
theorem c10_get_menu_defaults_amended (store : List Doc)
    (h : ∀ d ∈ store, menuDocOk d = true) :
    get_menu store = Except.ok (store.map renderMenuDoc) :=
  mapM_ok_of_forall parseMenuDoc renderMenuDoc store
    (fun d hd => parseMenuDoc_ok d (h d hd))

/-- A stored document holding nothing but a name: every other field is
defaulted. -/
def namedOnlyDoc : Doc := [("name", DVal.str "Secret Soup")]

/-- A stored document with a name, a price and a category but no
`description`, `image_url` or `is_available`: only the missing fields are
defaulted. -/
def partialMenuDoc : Doc :=
  [("name", DVal.str "Iced Tea"), ("price", DVal.num (mkRat 250 100)),
   ("category", DVal.str "Drinks")]

/-- C10 (witness): the amended statement evaluated on a two-document store
whose documents miss different fields. -/
theorem c10_get_menu_defaults_amended_witness :
    get_menu [namedOnlyDoc, partialMenuDoc] = Except.ok
      [{ name := "Secret Soup", description := Option.none, price := 0,
         category := "Other", image_url := Option.none, is_available := true },
       { name := "Iced Tea", description := Option.none, price := mkRat 250 100,
         category := "Drinks", image_url := Option.none, is_available := true }] := by
  rw [c10_get_menu_defaults_amended [namedOnlyDoc, partialMenuDoc] (by decide)]
  rfl

end RestaurantAPI
